import Mathlib

/-!
Verification development for the swcpy SDK client (`src/swcpy/swc_client.py`):
a shallow embedding of `SWCClient` — construction, `call_api` parameter
filtering, the list/get operations, and the bulk-file downloads — together
with theorems settling the specified behaviour.

The record schemas (`swcpy.schemas`) and the configuration resolution
(`swcpy.swc_config`) are not part of the client file; the record types and
their validation are modelled from the specification (section 3 and 4.3),
with wire field names taken from the repository's test fixtures.
-/

namespace Swcpy

/-- A JSON value as delivered by `response.json()`: null, string, integer,
decimal number (JSON decimal literals are exact, hence `Rat`), array, object. -/
inductive Json where
  | null : Json
  | str : String → Json
  | int : Int → Json
  | num : Rat → Json
  | arr : List Json → Json
  | obj : List (String × Json) → Json

/-- A query-parameter value: the Python code passes strings and integers. -/
inductive Value where
  | vStr : String → Value
  | vInt : Int → Value
deriving DecidableEq, Repr

/-- A Python `dict` of query parameters, in insertion order; a value of
`none` embeds Python `None` (an unset optional parameter). -/
abbrev ParamDict := List (String × Option Value)

/-- The resolved configuration values the client reads
(`cfg.swc_base_url`, `cfg.swc_backoff`, `cfg.swc_backoff_max_time`,
`cfg.swc_bulk_file_format`).
Modelled from the spec: `swcpy/swc_config.py` is not under `src`; the
spec (section 4.1) describes it as holding these four resolved values. -/
structure SWCConfig where
  swc_base_url : String
  swc_backoff : Bool
  swc_backoff_max_time : Nat
  swc_bulk_file_format : String
deriving DecidableEq, Repr

namespace SWCClient

/-- `SWCClient.HEALTH_CHECK_ENDPOINT`. -/
def HEALTH_CHECK_ENDPOINT : String := "/"
/-- `SWCClient.LIST_LEAGUES_ENDPOINT`. -/
def LIST_LEAGUES_ENDPOINT : String := "/v0/leagues/"
/-- `SWCClient.LIST_PLAYERS_ENDPOINT`. -/
def LIST_PLAYERS_ENDPOINT : String := "/v0/players/"
/-- `SWCClient.LIST_PERFORMANCES_ENDPOINT`. -/
def LIST_PERFORMANCES_ENDPOINT : String := "/v0/performances/"
/-- `SWCClient.LIST_TEAMS_ENDPOINT`. -/
def LIST_TEAMS_ENDPOINT : String := "/v0/teams/"
/-- `SWCClient.GET_COUNTS_ENDPOINT`. -/
def GET_COUNTS_ENDPOINT : String := "/v0/counts/"

/-- `SWCClient.BULK_FILE_BASE_URL`. -/
def BULK_FILE_BASE_URL : String :=
  "https://raw.githubusercontent.com/evrins/hands-on-api-data/main/bulk/"

/-- The logical bulk file name table assigned in `__init__`
(before the extension is appended). -/
def BULK_FILE_BASE_NAMES : List (String × String) :=
  [("players", "player_data"),
   ("leagues", "league_data"),
   ("performances", "performance_data"),
   ("teams", "team_data"),
   ("team_players", "team_player_data")]

end SWCClient

/-- ASCII lowercasing of one character (Python's `str.lower()` restricted to
ASCII; every stored bulk file format value is ASCII). -/
def asciiLowerChar (c : Char) : Char :=
  if 65 ≤ c.toNat ∧ c.toNat ≤ 90 then Char.ofNat (c.toNat + 32) else c

/-- Python's `str.lower()` on ASCII strings: lowercase every character. -/
def strLower (s : String) : String :=
  ⟨s.data.map asciiLowerChar⟩

/-- The extension chosen in `__init__`:
`'.parquet' if self.bulk_file_format.lower() == 'parquet' else '.csv'`. -/
def SWCClient.bulkExt (fmt : String) : String :=
  if strLower fmt = "parquet" then ".parquet" else ".csv"

/-- The state of a constructed `SWCClient`: the configuration fields copied
in `__init__` plus the extension-suffixed `BULK_FILE_NAMES` table. -/
structure SWCClientState where
  base_url : String
  backoff : Bool
  backoff_max_time : Nat
  bulk_file_format : String
  BULK_FILE_NAMES : List (String × String)
deriving DecidableEq, Repr

/-- `SWCClient.__init__(cfg)`: copies the configuration values and builds
`BULK_FILE_NAMES` by appending the chosen extension to each logical name. -/
def SWCClient.init (cfg : SWCConfig) : SWCClientState :=
  { base_url := cfg.swc_base_url,
    backoff := cfg.swc_backoff,
    backoff_max_time := cfg.swc_backoff_max_time,
    bulk_file_format := cfg.swc_bulk_file_format,
    BULK_FILE_NAMES := SWCClient.BULK_FILE_BASE_NAMES.map
      (fun kv => (kv.1, kv.2 ++ SWCClient.bulkExt cfg.swc_bulk_file_format)) }

/-- What a single transport attempt produces: a response with a JSON body,
a raised `httpx.HTTPStatusError`, or a raised `httpx.RequestError`. -/
inductive HttpOutcome where
  | ok : Json → HttpOutcome
  | statusError : Nat → String → HttpOutcome
  | requestError : String → HttpOutcome

/-- A transport script: the outcome of the n-th GET attempt issued to the
underlying network. -/
abbrev Transport := Nat → HttpOutcome

/-- The behaviour of the `RetryTransport`-wrapped client (the external
`httpx_retries` library), abstracted: given the transport script it produces
a final outcome and the number of attempts it consumed. It is irrelevant to
the claims, which concern the backoff-disabled plain client. -/
abbrev RetryImpl := Transport → HttpOutcome × Nat

/-- The error a client call propagates to the caller. -/
inductive SwcError where
  | httpStatus : Nat → String → SwcError
  | request : String → SwcError
  | validation : String → SwcError

/-- `self.http_client.get(...)`: the plain `httpx.Client` (constructed in the
`else` branch of `__init__`, no retrying transport) issues exactly one
transport attempt; the `RetryTransport`-wrapped client defers to the
retry implementation. -/
def httpClientGet (backoff : Bool) (retryImpl : RetryImpl) (transport : Transport) :
    HttpOutcome × Nat :=
  if backoff then retryImpl transport else (transport 0, 1)

/-- Stripping of unset parameters at the top of `call_api`:
`if params: params = \x7bk: v for k, v in params.items() if v is not None\x7d`.
An empty dict is falsy, so the comprehension runs only on a non-empty dict. -/
def stripNoneParams : Option ParamDict → Option ParamDict
  | none => none
  | some ps => if ps.isEmpty then some ps else some (ps.filter (fun kv => kv.2.isSome))

/-- The observable result of one `call_api` invocation: the endpoint the GET
was issued to, the outgoing parameter mapping (after stripping), the number
of transport attempts, and the outcome (the response's JSON body, or the
re-raised error). -/
structure CallResult where
  endpointSent : String
  paramsSent : Option ParamDict
  attempts : Nat
  outcome : Except SwcError Json

/-- `SWCClient.call_api(endpoint, params)`: strips unset parameters, issues
the GET through `self.http_client`, returns the response; a raised
`httpx.HTTPStatusError` or `httpx.RequestError` is logged and re-raised. -/
def call_api (cl : SWCClientState) (retryImpl : RetryImpl) (transport : Transport)
    (endpoint : String) (params : Option ParamDict) : CallResult :=
  let outgoing := stripNoneParams params
  let res := httpClientGet cl.backoff retryImpl transport
  { endpointSent := endpoint,
    paramsSent := outgoing,
    attempts := res.2,
    outcome :=
      match res.1 with
      | .ok body => .ok body
      | .statusError code text => .error (.httpStatus code text)
      | .requestError msg => .error (.request msg) }

/-- Field access on a JSON object, as pydantic keyword unpacking sees it. -/
def Json.getField (j : Json) (k : String) : Except String Json :=
  match j with
  | .obj fields =>
    match fields.lookup k with
    | some v => .ok v
    | none => .error (k ++ " is missing")
  | _ => .error "payload is not an object"

/-- A required integer field. -/
def Json.getInt (j : Json) (k : String) : Except String Int := do
  match ← j.getField k with
  | .int n => .ok n
  | _ => .error (k ++ " is not an integer")

/-- A required string field. -/
def Json.getStr (j : Json) (k : String) : Except String String := do
  match ← j.getField k with
  | .str s => .ok s
  | _ => .error (k ++ " is not a string")

/-- A required numeric field; an integer coerces to its numeric value. -/
def Json.getNum (j : Json) (k : String) : Except String Rat := do
  match ← j.getField k with
  | .num q => .ok q
  | .int n => .ok (n : Rat)
  | _ => .error (k ++ " is not a number")

/-- A required list field; an empty list is valid, a missing field is not. -/
def Json.getArr (j : Json) (k : String) : Except String (List Json) := do
  match ← j.getField k with
  | .arr xs => .ok xs
  | _ => .error (k ++ " is not a list")

/-- A Python list comprehension whose element expression may raise:
elements are produced left to right and the first failure aborts the whole
construction. -/
def mapExcept (f : α → Except ε β) : List α → Except ε (List β)
  | [] => .ok []
  | x :: xs =>
    match f x with
    | .error e => .error e
    | .ok y =>
      match mapExcept f xs with
      | .error e => .error e
      | .ok ys => .ok (y :: ys)

/-- Modelled from the spec: `swcpy/schemas.py` is not under `src`. A
`Performance` record (spec section 3): id, player foreign key, week label,
fantasy points (may be fractional), change timestamp; wire field names from
the repository's test fixtures. -/
structure Performance where
  performance_id : Int
  player_id : Int
  week_number : String
  fantasy_points : Rat
  last_changed_date : String
deriving DecidableEq, Repr

/-- Modelled from the spec: a `Player` record (spec section 3): id, external
id, names, position, change timestamp, owned ordered performance list. -/
structure Player where
  player_id : Int
  gsis_id : String
  first_name : String
  last_name : String
  position : String
  last_changed_date : String
  performances : List Performance
deriving DecidableEq, Repr

/-- Modelled from the spec: a `Team` record (spec section 3): league foreign
key, id, name, change timestamp, owned ordered player list. -/
structure Team where
  league_id : Int
  team_id : Int
  team_name : String
  last_changed_date : String
  players : List Player
deriving DecidableEq, Repr

/-- Modelled from the spec: a `League` record (spec section 3): id, name,
scoring type, change timestamp, owned ordered team list (possibly empty). -/
structure League where
  league_id : Int
  league_name : String
  scoring_type : String
  last_changed_date : String
  teams : List Team
deriving DecidableEq, Repr

/-- Modelled from the spec: validating construction `Performance(**payload)`
— every field is required; a missing or ill-typed field fails the whole
construction (spec section 4.3). -/
def parsePerformance (j : Json) : Except String Performance := do
  let pid ← j.getInt "performance_id"
  let plid ← j.getInt "player_id"
  let wk ← j.getStr "week_number"
  let fp ← j.getNum "fantasy_points"
  let lc ← j.getStr "last_changed_date"
  .ok { performance_id := pid, player_id := plid, week_number := wk,
        fantasy_points := fp, last_changed_date := lc }

/-- Modelled from the spec: validating construction `Player(**payload)`;
the nested performance list validates each element recursively. -/
def parsePlayer (j : Json) : Except String Player := do
  let pid ← j.getInt "player_id"
  let gid ← j.getStr "gsis_id"
  let fn ← j.getStr "first_name"
  let ln ← j.getStr "last_name"
  let pos ← j.getStr "position"
  let lc ← j.getStr "last_changed_date"
  let perfsJ ← j.getArr "performances"
  let perfs ← mapExcept parsePerformance perfsJ
  .ok { player_id := pid, gsis_id := gid, first_name := fn, last_name := ln,
        position := pos, last_changed_date := lc, performances := perfs }

/-- Modelled from the spec: validating construction `Team(**payload)`;
the nested player list validates each element recursively. -/
def parseTeam (j : Json) : Except String Team := do
  let lid ← j.getInt "league_id"
  let tid ← j.getInt "team_id"
  let tn ← j.getStr "team_name"
  let lc ← j.getStr "last_changed_date"
  let playersJ ← j.getArr "players"
  let players ← mapExcept parsePlayer playersJ
  .ok { league_id := lid, team_id := tid, team_name := tn,
        last_changed_date := lc, players := players }

/-- Modelled from the spec: validating construction `League(**payload)`;
the nested team list validates each element recursively. -/
def parseLeague (j : Json) : Except String League := do
  let lid ← j.getInt "league_id"
  let ln ← j.getStr "league_name"
  let st ← j.getStr "scoring_type"
  let lc ← j.getStr "last_changed_date"
  let teamsJ ← j.getArr "teams"
  let teams ← mapExcept parseTeam teamsJ
  .ok { league_id := lid, league_name := ln, scoring_type := st,
        last_changed_date := lc, teams := teams }

/-- Chain a body-parsing stage after a call outcome: a transport error
propagates unchanged, a successful response's body is parsed. -/
def parseOutcome (fromBody : Json → Except SwcError α) :
    Except SwcError Json → Except SwcError α
  | .error e => .error e
  | .ok j => fromBody j

/-- `[League(**it) for it in response.json()]` (swc_client.py line 140). -/
def leaguesFromBody (j : Json) : Except SwcError (List League) :=
  match j with
  | .arr xs => (mapExcept parseLeague xs).mapError SwcError.validation
  | _ => .error (.validation "response body is not a list")

/-- `[Team(**team) for team in response.json()]` (swc_client.py line 203). -/
def teamsFromBody (j : Json) : Except SwcError (List Team) :=
  match j with
  | .arr xs => (mapExcept parseTeam xs).mapError SwcError.validation
  | _ => .error (.validation "response body is not a list")

/-- `[Player(**player) for player in response.json()]` (line 234). -/
def playersFromBody (j : Json) : Except SwcError (List Player) :=
  match j with
  | .arr xs => (mapExcept parsePlayer xs).mapError SwcError.validation
  | _ => .error (.validation "response body is not a list")

/-- `[Performance(**it) for it in response.json()]` (line 277). -/
def performancesFromBody (j : Json) : Except SwcError (List Performance) :=
  match j with
  | .arr xs => (mapExcept parsePerformance xs).mapError SwcError.validation
  | _ => .error (.validation "response body is not a list")

/-- Python's declared pagination default `skip: int = 0`. -/
def LIST_SKIP_DEFAULT : Int := 0
/-- Python's declared pagination default `limit: int = 100`. -/
def LIST_LIMIT_DEFAULT : Int := 100

/-- The params dict assembled by `list_leagues` (lines 132-137),
in insertion order. -/
def list_leagues_params (skip limit : Int)
    (min_last_changed_date league_name : Option String) : ParamDict :=
  [("skip", some (.vInt skip)),
   ("limit", some (.vInt limit)),
   ("min_last_changed_date", min_last_changed_date.map Value.vStr),
   ("league_name", league_name.map Value.vStr)]

/-- The params dict assembled by `list_teams` (lines 195-201). -/
def list_teams_params (skip limit : Int)
    (min_last_changed_date team_name : Option String) (league_id : Option Int) :
    ParamDict :=
  [("skip", some (.vInt skip)),
   ("limit", some (.vInt limit)),
   ("min_last_changed_date", min_last_changed_date.map Value.vStr),
   ("team_name", team_name.map Value.vStr),
   ("league_id", league_id.map Value.vInt)]

/-- The params dict assembled by `list_players` (lines 225-231). -/
def list_players_params (skip limit : Int)
    (min_last_changed_date first_name last_name : Option String) : ParamDict :=
  [("skip", some (.vInt skip)),
   ("limit", some (.vInt limit)),
   ("min_last_changed_date", min_last_changed_date.map Value.vStr),
   ("first_name", first_name.map Value.vStr),
   ("last_name", last_name.map Value.vStr)]

/-- The params dict assembled by `list_performances` (lines 270-274). -/
def list_performances_params (skip limit : Int)
    (min_last_changed_date : Option String) : ParamDict :=
  [("skip", some (.vInt skip)),
   ("limit", some (.vInt limit)),
   ("min_last_changed_date", min_last_changed_date.map Value.vStr)]

/-- `SWCClient.list_leagues`: assembles the params dict, calls `call_api` on
the leagues collection endpoint, and builds one `League` per element of the
JSON array body. -/
def list_leagues (cl : SWCClientState) (retryImpl : RetryImpl) (transport : Transport)
    (skip limit : Int) (min_last_changed_date league_name : Option String) :
    CallResult × Except SwcError (List League) :=
  let r := call_api cl retryImpl transport SWCClient.LIST_LEAGUES_ENDPOINT
    (some (list_leagues_params skip limit min_last_changed_date league_name))
  (r, parseOutcome leaguesFromBody r.outcome)

/-- `SWCClient.get_league_by_id`: interpolates the id after the leagues
collection path, calls `call_api` with no params, and builds a single
`League` from the JSON body. -/
def get_league_by_id (cl : SWCClientState) (retryImpl : RetryImpl)
    (transport : Transport) (league_id : Int) :
    CallResult × Except SwcError League :=
  let r := call_api cl retryImpl transport
    (SWCClient.LIST_LEAGUES_ENDPOINT ++ toString league_id) none
  (r, parseOutcome (fun j => (parseLeague j).mapError SwcError.validation) r.outcome)

/-- `SWCClient.list_teams`. -/
def list_teams (cl : SWCClientState) (retryImpl : RetryImpl) (transport : Transport)
    (skip limit : Int) (min_last_changed_date team_name : Option String)
    (league_id : Option Int) : CallResult × Except SwcError (List Team) :=
  let r := call_api cl retryImpl transport SWCClient.LIST_TEAMS_ENDPOINT
    (some (list_teams_params skip limit min_last_changed_date team_name league_id))
  (r, parseOutcome teamsFromBody r.outcome)

/-- `SWCClient.list_players`. -/
def list_players (cl : SWCClientState) (retryImpl : RetryImpl) (transport : Transport)
    (skip limit : Int) (min_last_changed_date first_name last_name : Option String) :
    CallResult × Except SwcError (List Player) :=
  let r := call_api cl retryImpl transport SWCClient.LIST_PLAYERS_ENDPOINT
    (some (list_players_params skip limit min_last_changed_date first_name last_name))
  (r, parseOutcome playersFromBody r.outcome)

/-- `SWCClient.list_performances`. -/
def list_performances (cl : SWCClientState) (retryImpl : RetryImpl)
    (transport : Transport) (skip limit : Int)
    (min_last_changed_date : Option String) :
    CallResult × Except SwcError (List Performance) :=
  let r := call_api cl retryImpl transport SWCClient.LIST_PERFORMANCES_ENDPOINT
    (some (list_performances_params skip limit min_last_changed_date))
  (r, parseOutcome performancesFromBody r.outcome)

/-- A request issued by a bulk-file download: the full URL, the
`follow_redirects=True` flag, and whether it went through the client's
(possibly retrying) transport — `httpx.get` is module-level, so it does not. -/
structure BulkRequest where
  url : String
  follow_redirects : Bool
  via_retry_transport : Bool
deriving DecidableEq, Repr

/-- The response seen by a bulk-file download: a status code and raw bytes. -/
structure BulkResponse where
  status_code : Nat
  content : List Nat
deriving DecidableEq, Repr

/-- `SWCClient.__get_bulk_file(key)`: looks the file name up in
`BULK_FILE_NAMES`, issues a plain `httpx.get` with redirects followed, and
returns `response.content` unconditionally (the status code is only
inspected for a debug log line); `none` embeds the `KeyError` a missing key
would raise. -/
def get_bulk_file (cl : SWCClientState) (httpGet : BulkRequest → BulkResponse)
    (key : String) : Option (BulkRequest × List Nat) :=
  (cl.BULK_FILE_NAMES.lookup key).map (fun name =>
    let req : BulkRequest :=
      { url := SWCClient.BULK_FILE_BASE_URL ++ name,
        follow_redirects := true,
        via_retry_transport := false }
    (req, (httpGet req).content))

/-- `SWCClient.get_bulk_player_file`. -/
def get_bulk_player_file (cl : SWCClientState) (httpGet : BulkRequest → BulkResponse) :
    Option (BulkRequest × List Nat) :=
  get_bulk_file cl httpGet "players"

/-- `SWCClient.get_bulk_league_file`. -/
def get_bulk_league_file (cl : SWCClientState) (httpGet : BulkRequest → BulkResponse) :
    Option (BulkRequest × List Nat) :=
  get_bulk_file cl httpGet "leagues"

/-- `SWCClient.get_bulk_performance_file`. -/
def get_bulk_performance_file (cl : SWCClientState)
    (httpGet : BulkRequest → BulkResponse) : Option (BulkRequest × List Nat) :=
  get_bulk_file cl httpGet "performances"

/-- `SWCClient.get_bulk_team_file`. -/
def get_bulk_team_file (cl : SWCClientState) (httpGet : BulkRequest → BulkResponse) :
    Option (BulkRequest × List Nat) :=
  get_bulk_file cl httpGet "teams"

/-- `SWCClient.get_bulk_team_player_file`. -/
def get_bulk_team_player_file (cl : SWCClientState)
    (httpGet : BulkRequest → BulkResponse) : Option (BulkRequest × List Nat) :=
  get_bulk_file cl httpGet "team_players"

/-- A heap of live Python dicts, addressed by allocation index; callers hold
an index into it. -/
structure Store where
  dicts : List ParamDict
deriving DecidableEq, Repr

/-- `call_api` with the caller's params dict held in a store, tracking
allocation: the comprehension on a truthy dict allocates a NEW dict (appended
to the store) and rebinds the local name; the caller's dict is only read.
The returned `CallResult` is the same as the pure `call_api` on the dict's
contents. -/
def call_api_st (cl : SWCClientState) (retryImpl : RetryImpl) (transport : Transport)
    (endpoint : String) (st : Store) (paramsRef : Option Nat) :
    Store × CallResult :=
  match paramsRef with
  | none => (st, call_api cl retryImpl transport endpoint none)
  | some i =>
    let ps := (st.dicts.get? i).getD []
    let st' : Store :=
      if ps.isEmpty then st
      else { dicts := st.dicts ++ [ps.filter (fun kv => kv.2.isSome)] }
    (st', call_api cl retryImpl transport endpoint (some ps))

/-- The test-suite configuration: backoff disabled, csv format
(tests/test_swc_client.py, fixture `mock_config`). -/
def cfgTest : SWCConfig :=
  { swc_base_url := "https://api.test.com", swc_backoff := false,
    swc_backoff_max_time := 30, swc_bulk_file_format := "csv" }

/-- The client the test suite constructs. -/
def clTest : SWCClientState := SWCClient.init cfgTest

/-- A concrete retry implementation for instantiations (irrelevant whenever
backoff is disabled): one attempt, no retry. -/
def oneShotRetry : RetryImpl := fun transport => (transport 0, 1)

/-- The league JSON object used by the test suite's mocked responses
(tests/test_swc_client.py, `test_list_leagues` / `test_get_league_by_id`). -/
def leagueFixtureJson : Json :=
  .obj [("league_id", .int 1),
        ("league_name", .str "Test League"),
        ("scoring_type", .str "standard"),
        ("last_changed_date", .str "2024-01-01T00:00:00"),
        ("teams", .arr [])]

/-- The validated record the fixture payload constructs. -/
def leagueFixture : League :=
  { league_id := 1, league_name := "Test League", scoring_type := "standard",
    last_changed_date := "2024-01-01T00:00:00", teams := [] }

/-- A transport always answering with a one-league JSON array body. -/
def leagueListTransport : Transport := fun _ => .ok (.arr [leagueFixtureJson])

/-- A transport always answering with a single league JSON object body. -/
def leagueDetailTransport : Transport := fun _ => .ok leagueFixtureJson

/-- A transport whose first attempt raises an HTTP 400 status error
(tests/test_swc_client.py, `test_call_api_http_status_error`). -/
def badRequestTransport : Transport := fun _ => .statusError 400 "Bad Request"

/-- The test-suite configuration with bulk file format "Parquet"
(capitalized): probes the case-sensitivity of the extension choice. -/
def cfgParquetCapitalized : SWCConfig :=
  { swc_base_url := "https://api.test.com", swc_backoff := false,
    swc_backoff_max_time := 30, swc_bulk_file_format := "Parquet" }

/-- `s` ends with `suffix`: the code points of `suffix` are a suffix of the
code points of `s` (the meaning of Python's `str.endswith`). -/
def strEndsWith (s suffix : String) : Bool :=
  suffix.data.isSuffixOf s.data

/-- The test-suite configuration with bulk file format "CSV" (capitalized). -/
def cfgCSVCapitalized : SWCConfig :=
  { swc_base_url := "https://api.test.com", swc_backoff := false,
    swc_backoff_max_time := 30, swc_bulk_file_format := "CSV" }

/-- The request a bulk download for logical name `base` issues: the fixed
bulk base URL, the logical name, the configured extension; redirects are
followed and the module-level `httpx.get` bypasses the retrying transport. -/
def bulkRequestFor (cfg : SWCConfig) (base : String) : BulkRequest :=
  { url := SWCClient.BULK_FILE_BASE_URL
      ++ (base ++ SWCClient.bulkExt cfg.swc_bulk_file_format),
    follow_redirects := true,
    via_retry_transport := false }

/-- Membership characterization of the stripping step of `call_api`. -/
theorem stripNoneParams_some_spec (ps : ParamDict) :
    (∀ kv, kv ∈ ((stripNoneParams (some ps)).getD []) → kv.2.isSome = true) ∧
    (∀ kv, kv ∈ ps → kv.2.isSome = true →
      kv ∈ ((stripNoneParams (some ps)).getD [])) ∧
    (∀ kv, kv ∈ ((stripNoneParams (some ps)).getD []) → kv ∈ ps) := by
  simp only [stripNoneParams]
  by_cases h : ps.isEmpty
  · rw [List.isEmpty_iff] at h
    subst h
    simp
  · rw [if_neg h]
    refine ⟨?_, ?_, ?_⟩
    · intro kv hkv
      exact (List.mem_filter.mp hkv).2
    · intro kv hkv hv
      exact List.mem_filter.mpr ⟨hkv, hv⟩
    · intro kv hkv
      exact (List.mem_filter.mp hkv).1

/-- C1: for every endpoint and every parameter mapping passed to `call_api`,
the outgoing mapping contains no key bound to an unset (`none`) value, every
key-value pair with a set value is kept unchanged, and no pair is invented. -/
theorem swc_c1_call_api_filters_unset (cl : SWCClientState) (retryImpl : RetryImpl)
    (transport : Transport) (endpoint : String) (ps : ParamDict) :
    (∀ kv, kv ∈ (((call_api cl retryImpl transport endpoint (some ps)).paramsSent).getD [])
      → kv.2.isSome = true) ∧
    (∀ kv, kv ∈ ps → kv.2.isSome = true →
      kv ∈ (((call_api cl retryImpl transport endpoint (some ps)).paramsSent).getD [])) ∧
    (∀ kv, kv ∈ (((call_api cl retryImpl transport endpoint (some ps)).paramsSent).getD [])
      → kv ∈ ps) :=
  stripNoneParams_some_spec ps

/-- Witness for C1 at the test suite's concrete mapping: the set pair is in
the outgoing mapping, the unset pair is not. -/
theorem swc_c1_witness :
    ("param1", some (Value.vStr "value")) ∈
      (((call_api clTest oneShotRetry leagueListTransport "/test"
        (some [("param1", some (Value.vStr "value")), ("param2", none)])).paramsSent).getD []) ∧
    ¬ ("param2", (none : Option Value)) ∈
      (((call_api clTest oneShotRetry leagueListTransport "/test"
        (some [("param1", some (Value.vStr "value")), ("param2", none)])).paramsSent).getD []) := by
  constructor
  · exact (swc_c1_call_api_filters_unset clTest oneShotRetry leagueListTransport "/test"
      [("param1", some (Value.vStr "value")), ("param2", none)]).2.1
      ("param1", some (Value.vStr "value")) (by simp) rfl
  · intro hmem
    have := (swc_c1_call_api_filters_unset clTest oneShotRetry leagueListTransport "/test"
      [("param1", some (Value.vStr "value")), ("param2", none)]).1
      ("param2", (none : Option Value)) hmem
    simp at this

/-- C2 counterexample: at bulk file format "Parquet" (capitalized), the
claim's ".csv" prediction is false — the comparison in `__init__` lowercases
first, so every file name ends in ".parquet"; the players lookup shows it. -/
theorem swc_c2_counterexample :
    ¬ (∀ kv ∈ (SWCClient.init cfgParquetCapitalized).BULK_FILE_NAMES,
        strEndsWith kv.2 ".csv" = true) ∧
    (SWCClient.init cfgParquetCapitalized).BULK_FILE_NAMES.lookup "players"
      = some "player_data.parquet" ∧
    strEndsWith "player_data.parquet" ".csv" = false := by
  refine ⟨?_, by decide, by decide⟩
  intro hall
  have h1 := hall ("players", "player_data.parquet") (by decide)
  exact absurd h1 (by decide)

/-- When the format lowercases to "parquet", `__init__` chooses ".parquet". -/
theorem bulkExt_of_lower_parquet (fmt : String) (h : strLower fmt = "parquet") :
    SWCClient.bulkExt fmt = ".parquet" := by
  unfold SWCClient.bulkExt
  rw [if_pos h]

/-- When the format does not lowercase to "parquet", `__init__` chooses ".csv". -/
theorem bulkExt_of_lower_ne (fmt : String) (h : ¬ strLower fmt = "parquet") :
    SWCClient.bulkExt fmt = ".csv" := by
  unfold SWCClient.bulkExt
  rw [if_neg h]

/-- C2 amended: the extension choice lowercases the stored format first, so
any format whose lowercasing is "parquet" (including "Parquet") yields five
".parquet" file names, and any other value (including "CSV") yields five
".csv" file names. -/
theorem swc_c2_bulk_ext_lowercases (cfg : SWCConfig) :
    (strLower cfg.swc_bulk_file_format = "parquet" →
      (SWCClient.init cfg).BULK_FILE_NAMES.map (fun kv => strEndsWith kv.2 ".parquet")
        = [true, true, true, true, true]) ∧
    (¬ strLower cfg.swc_bulk_file_format = "parquet" →
      (SWCClient.init cfg).BULK_FILE_NAMES.map (fun kv => strEndsWith kv.2 ".csv")
        = [true, true, true, true, true]) := by
  constructor
  · intro h
    simp only [SWCClient.init, bulkExt_of_lower_parquet _ h, SWCClient.BULK_FILE_BASE_NAMES]
    decide
  · intro h
    simp only [SWCClient.init, bulkExt_of_lower_ne _ h, SWCClient.BULK_FILE_BASE_NAMES]
    decide

/-- Witness for C2's amended claim at formats "Parquet" and "CSV". -/
theorem swc_c2_witness :
    (SWCClient.init cfgParquetCapitalized).BULK_FILE_NAMES.map
      (fun kv => strEndsWith kv.2 ".parquet") = [true, true, true, true, true] ∧
    (SWCClient.init cfgCSVCapitalized).BULK_FILE_NAMES.map
      (fun kv => strEndsWith kv.2 ".csv") = [true, true, true, true, true] :=
  ⟨(swc_c2_bulk_ext_lowercases cfgParquetCapitalized).1 (by decide),
   (swc_c2_bulk_ext_lowercases cfgCSVCapitalized).2 (by decide)⟩

/-- C3: with backoff disabled the client is a plain `httpx.Client`, so a call
issues exactly one transport attempt, and an HTTP status error or a request
(network) error raised on that first attempt is re-raised to the caller
unchanged — no second attempt. -/
theorem swc_c3_no_backoff_no_retry (cl : SWCClientState) (retryImpl : RetryImpl)
    (transport : Transport) (endpoint : String) (params : Option ParamDict)
    (hb : cl.backoff = false) :
    ((call_api cl retryImpl transport endpoint params).attempts = 1) ∧
    (∀ code text, transport 0 = .statusError code text →
      (call_api cl retryImpl transport endpoint params).outcome
        = .error (.httpStatus code text)) ∧
    (∀ msg, transport 0 = .requestError msg →
      (call_api cl retryImpl transport endpoint params).outcome
        = .error (.request msg)) := by
  unfold call_api httpClientGet
  rw [hb]
  refine ⟨rfl, ?_, ?_⟩
  · intro code text h
    simp only [Bool.false_eq_true, if_false, h]
  · intro msg h
    simp only [Bool.false_eq_true, if_false, h]

/-- Witness for C3: the test client (backoff disabled) against a transport
raising HTTP 400 on the first attempt. -/
theorem swc_c3_witness :
    (call_api clTest oneShotRetry badRequestTransport "/test" none).attempts = 1 ∧
    (call_api clTest oneShotRetry badRequestTransport "/test" none).outcome
      = .error (.httpStatus 400 "Bad Request") :=
  ⟨(swc_c3_no_backoff_no_retry clTest oneShotRetry badRequestTransport "/test" none rfl).1,
   (swc_c3_no_backoff_no_retry clTest oneShotRetry badRequestTransport "/test" none rfl).2.1
     400 "Bad Request" rfl⟩

/-- The five bulk file operations, evaluated: shared between the
error-handling and the addressing claims. -/
theorem get_bulk_ops_eq (cfg : SWCConfig) (httpGet : BulkRequest → BulkResponse) :
    get_bulk_player_file (SWCClient.init cfg) httpGet
      = some (bulkRequestFor cfg "player_data",
              (httpGet (bulkRequestFor cfg "player_data")).content) ∧
    get_bulk_league_file (SWCClient.init cfg) httpGet
      = some (bulkRequestFor cfg "league_data",
              (httpGet (bulkRequestFor cfg "league_data")).content) ∧
    get_bulk_performance_file (SWCClient.init cfg) httpGet
      = some (bulkRequestFor cfg "performance_data",
              (httpGet (bulkRequestFor cfg "performance_data")).content) ∧
    get_bulk_team_file (SWCClient.init cfg) httpGet
      = some (bulkRequestFor cfg "team_data",
              (httpGet (bulkRequestFor cfg "team_data")).content) ∧
    get_bulk_team_player_file (SWCClient.init cfg) httpGet
      = some (bulkRequestFor cfg "team_player_data",
              (httpGet (bulkRequestFor cfg "team_player_data")).content) := by
  refine ⟨?_, ?_, ?_, ?_, ?_⟩ <;>
    simp [get_bulk_player_file, get_bulk_league_file, get_bulk_performance_file,
      get_bulk_team_file, get_bulk_team_player_file, get_bulk_file,
      SWCClient.init, SWCClient.BULK_FILE_BASE_NAMES, List.lookup, bulkRequestFor]

/-- C4: each of the five bulk file operations returns the raw byte content of
whatever response the plain GET produces — `httpGet` here is arbitrary, so
this holds for every status code; the result type has no error outlet, so no
status ever raises. -/
theorem swc_c4_bulk_returns_content (cfg : SWCConfig)
    (httpGet : BulkRequest → BulkResponse) :
    (∃ req, get_bulk_player_file (SWCClient.init cfg) httpGet
      = some (req, (httpGet req).content)) ∧
    (∃ req, get_bulk_league_file (SWCClient.init cfg) httpGet
      = some (req, (httpGet req).content)) ∧
    (∃ req, get_bulk_performance_file (SWCClient.init cfg) httpGet
      = some (req, (httpGet req).content)) ∧
    (∃ req, get_bulk_team_file (SWCClient.init cfg) httpGet
      = some (req, (httpGet req).content)) ∧
    (∃ req, get_bulk_team_player_file (SWCClient.init cfg) httpGet
      = some (req, (httpGet req).content)) :=
  ⟨⟨_, (get_bulk_ops_eq cfg httpGet).1⟩,
   ⟨_, (get_bulk_ops_eq cfg httpGet).2.1⟩,
   ⟨_, (get_bulk_ops_eq cfg httpGet).2.2.1⟩,
   ⟨_, (get_bulk_ops_eq cfg httpGet).2.2.2.1⟩,
   ⟨_, (get_bulk_ops_eq cfg httpGet).2.2.2.2⟩⟩

/-- C5: `list_leagues(skip=10, limit=50, league_name="Test")` against the
test suite's one-league mocked response: the GET goes to the leagues
collection path, the outgoing query parameters are exactly skip=10, limit=50,
league_name="Test" with min_last_changed_date absent, and the result is one
`League` whose name field is "Test League". -/
theorem swc_c5_list_leagues_test :
    (list_leagues clTest oneShotRetry leagueListTransport 10 50 none
      (some "Test")).1.endpointSent = SWCClient.LIST_LEAGUES_ENDPOINT ∧
    (list_leagues clTest oneShotRetry leagueListTransport 10 50 none
      (some "Test")).1.paramsSent
      = some [("skip", some (.vInt 10)), ("limit", some (.vInt 50)),
              ("league_name", some (.vStr "Test"))] ∧
    (list_leagues clTest oneShotRetry leagueListTransport 10 50 none
      (some "Test")).2 = .ok [leagueFixture] ∧
    leagueFixture.league_name = "Test League" :=
  ⟨rfl, rfl, rfl, rfl⟩

/-- C6: `get_league_by_id` issues one GET to the leagues detail path with the
id interpolated as the final segment and no query parameters, and builds a
single `League` from the JSON body; at id 1 and the fixture payload, the
returned record's id field is 1. -/
theorem swc_c6_get_league_by_id (cl : SWCClientState) (retryImpl : RetryImpl)
    (transport : Transport) (league_id : Int) :
    (get_league_by_id cl retryImpl transport league_id).1.endpointSent
      = SWCClient.LIST_LEAGUES_ENDPOINT ++ toString league_id ∧
    (get_league_by_id cl retryImpl transport league_id).1.paramsSent = none ∧
    (cl.backoff = false →
      (get_league_by_id cl retryImpl transport league_id).1.attempts = 1 ∧
      (∀ body, transport 0 = .ok body →
        (get_league_by_id cl retryImpl transport league_id).2
          = (parseLeague body).mapError SwcError.validation)) ∧
    (get_league_by_id clTest oneShotRetry leagueDetailTransport 1).2
      = .ok leagueFixture ∧
    leagueFixture.league_id = 1 := by
  refine ⟨rfl, rfl, ?_, rfl, rfl⟩
  intro hb
  constructor
  · unfold get_league_by_id call_api httpClientGet
    rw [hb]
    rfl
  · intro body h
    unfold get_league_by_id call_api httpClientGet parseOutcome
    rw [hb]
    simp only [Bool.false_eq_true, if_false, h]

/-- Witness for C6: the fixture transport delivers the fixture payload, and
the result is its validated record. -/
theorem swc_c6_witness :
    (get_league_by_id clTest oneShotRetry leagueDetailTransport 1).1.attempts = 1 ∧
    (get_league_by_id clTest oneShotRetry leagueDetailTransport 1).2
      = (parseLeague leagueFixtureJson).mapError SwcError.validation :=
  ⟨((swc_c6_get_league_by_id clTest oneShotRetry leagueDetailTransport 1).2.2.1 rfl).1,
   ((swc_c6_get_league_by_id clTest oneShotRetry leagueDetailTransport 1).2.2.1 rfl).2
     leagueFixtureJson rfl⟩

/-- C7: every list operation assembles its params dict with skip=0 and
limit=100 when the caller omits the pagination arguments (Python's declared
defaults), whatever the optional filter arguments are. -/
theorem swc_c7_default_pagination
    (m1 ln m2 tn m3 fn lsn m4 : Option String) (lid : Option Int) :
    (LIST_SKIP_DEFAULT = 0 ∧ LIST_LIMIT_DEFAULT = 100) ∧
    (("skip", some (Value.vInt 0))
        ∈ list_leagues_params LIST_SKIP_DEFAULT LIST_LIMIT_DEFAULT m1 ln ∧
      ("limit", some (Value.vInt 100))
        ∈ list_leagues_params LIST_SKIP_DEFAULT LIST_LIMIT_DEFAULT m1 ln) ∧
    (("skip", some (Value.vInt 0))
        ∈ list_teams_params LIST_SKIP_DEFAULT LIST_LIMIT_DEFAULT m2 tn lid ∧
      ("limit", some (Value.vInt 100))
        ∈ list_teams_params LIST_SKIP_DEFAULT LIST_LIMIT_DEFAULT m2 tn lid) ∧
    (("skip", some (Value.vInt 0))
        ∈ list_players_params LIST_SKIP_DEFAULT LIST_LIMIT_DEFAULT m3 fn lsn ∧
      ("limit", some (Value.vInt 100))
        ∈ list_players_params LIST_SKIP_DEFAULT LIST_LIMIT_DEFAULT m3 fn lsn) ∧
    (("skip", some (Value.vInt 0))
        ∈ list_performances_params LIST_SKIP_DEFAULT LIST_LIMIT_DEFAULT m4 ∧
      ("limit", some (Value.vInt 100))
        ∈ list_performances_params LIST_SKIP_DEFAULT LIST_LIMIT_DEFAULT m4) := by
  simp [list_leagues_params, list_teams_params, list_players_params,
    list_performances_params, LIST_SKIP_DEFAULT, LIST_LIMIT_DEFAULT]

/-- C8: each of the five bulk file operations issues its GET to the bulk base
URL concatenated with its logical file name plus the configured extension,
with redirects followed and without the retrying transport. -/
theorem swc_c8_bulk_urls (cfg : SWCConfig) (httpGet : BulkRequest → BulkResponse) :
    (∀ base, (bulkRequestFor cfg base).url
        = SWCClient.BULK_FILE_BASE_URL
          ++ (base ++ SWCClient.bulkExt cfg.swc_bulk_file_format) ∧
      (bulkRequestFor cfg base).follow_redirects = true ∧
      (bulkRequestFor cfg base).via_retry_transport = false) ∧
    get_bulk_player_file (SWCClient.init cfg) httpGet
      = some (bulkRequestFor cfg "player_data",
              (httpGet (bulkRequestFor cfg "player_data")).content) ∧
    get_bulk_league_file (SWCClient.init cfg) httpGet
      = some (bulkRequestFor cfg "league_data",
              (httpGet (bulkRequestFor cfg "league_data")).content) ∧
    get_bulk_performance_file (SWCClient.init cfg) httpGet
      = some (bulkRequestFor cfg "performance_data",
              (httpGet (bulkRequestFor cfg "performance_data")).content) ∧
    get_bulk_team_file (SWCClient.init cfg) httpGet
      = some (bulkRequestFor cfg "team_data",
              (httpGet (bulkRequestFor cfg "team_data")).content) ∧
    get_bulk_team_player_file (SWCClient.init cfg) httpGet
      = some (bulkRequestFor cfg "team_player_data",
              (httpGet (bulkRequestFor cfg "team_player_data")).content) :=
  ⟨fun _ => ⟨rfl, rfl, rfl⟩,
   (get_bulk_ops_eq cfg httpGet).1,
   (get_bulk_ops_eq cfg httpGet).2.1,
   (get_bulk_ops_eq cfg httpGet).2.2.1,
   (get_bulk_ops_eq cfg httpGet).2.2.2.1,
   (get_bulk_ops_eq cfg httpGet).2.2.2.2⟩

/-- A successful `mapExcept` run produces one output per input. -/
theorem mapExcept_ok_length (f : α → Except ε β) (xs : List α) :
    ∀ ys, mapExcept f xs = .ok ys → ys.length = xs.length := by
  induction xs with
  | nil =>
    intro ys h
    simp only [mapExcept] at h
    cases h
    rfl
  | cons x xs ih =>
    intro ys h
    simp only [mapExcept] at h
    cases hfx : f x with
    | error e => rw [hfx] at h; cases h
    | ok y =>
      rw [hfx] at h
      cases hrest : mapExcept f xs with
      | error e => rw [hrest] at h; cases h
      | ok ys2 =>
        rw [hrest] at h
        cases h
        simp [ih ys2 hrest]

/-- A successful `mapExcept` run maps the i-th input to the i-th output. -/
theorem mapExcept_ok_get (f : α → Except ε β) (xs : List α) :
    ∀ ys, mapExcept f xs = .ok ys →
      ∀ i (hx : i < xs.length) (hy : i < ys.length),
        f (xs.get ⟨i, hx⟩) = .ok (ys.get ⟨i, hy⟩) := by
  induction xs with
  | nil =>
    intro ys h i hx hy
    exact absurd hx (by simp)
  | cons x xs ih =>
    intro ys h i hx hy
    simp only [mapExcept] at h
    cases hfx : f x with
    | error e => rw [hfx] at h; cases h
    | ok y =>
      rw [hfx] at h
      cases hrest : mapExcept f xs with
      | error e => rw [hrest] at h; cases h
      | ok ys2 =>
        rw [hrest] at h
        cases h
        cases i with
        | zero => exact hfx
        | succ n =>
          exact ih ys2 hrest n (Nat.lt_of_succ_lt_succ hx) (Nat.lt_of_succ_lt_succ hy)

/-- The ok-case of `Except.mapError` is injectively the ok-case. -/
theorem mapError_ok {e : Except ε α} {f : ε → ε2} {y : α}
    (h : e.mapError f = .ok y) : e = .ok y := by
  cases e with
  | ok a =>
    simp only [Except.mapError] at h
    cases h
    rfl
  | error b => exact Except.noConfusion h

/-- C9: for every JSON array response body, each list operation's
comprehension — `leaguesFromBody`, `teamsFromBody`, `playersFromBody`,
`performancesFromBody` — returns, when it succeeds, a sequence of the same
length whose i-th element is the record constructed from the i-th array
element: element order is preserved. -/
theorem swc_c9_list_order_preserved :
    (∀ xs ys, leaguesFromBody (.arr xs) = .ok ys →
      ys.length = xs.length ∧
      ∀ i (hx : i < xs.length) (hy : i < ys.length),
        parseLeague (xs.get ⟨i, hx⟩) = .ok (ys.get ⟨i, hy⟩)) ∧
    (∀ xs ys, teamsFromBody (.arr xs) = .ok ys →
      ys.length = xs.length ∧
      ∀ i (hx : i < xs.length) (hy : i < ys.length),
        parseTeam (xs.get ⟨i, hx⟩) = .ok (ys.get ⟨i, hy⟩)) ∧
    (∀ xs ys, playersFromBody (.arr xs) = .ok ys →
      ys.length = xs.length ∧
      ∀ i (hx : i < xs.length) (hy : i < ys.length),
        parsePlayer (xs.get ⟨i, hx⟩) = .ok (ys.get ⟨i, hy⟩)) ∧
    (∀ xs ys, performancesFromBody (.arr xs) = .ok ys →
      ys.length = xs.length ∧
      ∀ i (hx : i < xs.length) (hy : i < ys.length),
        parsePerformance (xs.get ⟨i, hx⟩) = .ok (ys.get ⟨i, hy⟩)) := by
  refine ⟨?_, ?_, ?_, ?_⟩ <;>
  · intro xs ys h
    replace h := mapError_ok h
    exact ⟨mapExcept_ok_length _ xs ys h, mapExcept_ok_get _ xs ys h⟩

/-- Witness for C9 at the one-league fixture body. -/
theorem swc_c9_witness :
    leaguesFromBody (Json.arr [leagueFixtureJson]) = .ok [leagueFixture] ∧
    ([leagueFixture] : List League).length = ([leagueFixtureJson] : List Json).length :=
  ⟨rfl, (swc_c9_list_order_preserved.1 [leagueFixtureJson] [leagueFixture] rfl).1⟩

/-- C10: `call_api` never mutates the caller's parameter dict: the stripping
comprehension allocates a fresh dict, so every dict existing in the store
before the call — in particular the caller's — holds exactly the pairs it
held before, whether the call returns or raises; and the call's observable
result is the pure `call_api` on the dict's contents. -/
theorem swc_c10_params_not_mutated (cl : SWCClientState) (retryImpl : RetryImpl)
    (transport : Transport) (endpoint : String) (st : Store)
    (paramsRef : Option Nat) :
    ((call_api_st cl retryImpl transport endpoint st paramsRef).1.dicts.take
        st.dicts.length = st.dicts) ∧
    ((call_api_st cl retryImpl transport endpoint st paramsRef).2
      = call_api cl retryImpl transport endpoint
          (paramsRef.map (fun i => (st.dicts.get? i).getD []))) := by
  cases paramsRef with
  | none => exact ⟨List.take_length st.dicts, rfl⟩
  | some i =>
    constructor
    · show (if ((st.dicts.get? i).getD []).isEmpty then st
        else { dicts := st.dicts
          ++ [((st.dicts.get? i).getD []).filter (fun kv => kv.2.isSome)] }
          : Store).dicts.take st.dicts.length = st.dicts
      by_cases h : ((st.dicts.get? i).getD []).isEmpty
      · rw [if_pos h]
        exact List.take_length st.dicts
      · rw [if_neg h]
        exact List.take_left st.dicts _
    · rfl

end Swcpy
